import Mathlib

/-!
Verification development for the DEX aggregator-router core
(`plugins/crypto/dex-aggregator-router/skills/routing-dex-trades/scripts`).

Shallow embedding notes:
* Python `Decimal` and `float` arithmetic are both modelled over `ℚ`
  (exact arithmetic); numeric literals such as `0.01` are exact rationals.
  For the properties proved here this is harmless (order comparisons,
  monotone step tables, min-caps and sort keys are unaffected by the
  rounding), with one exception that is flagged where it matters: the
  split loop's exact-sum invariant does depend on the source's float and
  `Decimal`-context roundings, see the idealization note on `allocLoop`.
* Wall-clock time is not modelled: `NormalizedQuote.is_expired` (a property
  derived from `timestamp` in the source) is embedded as a field carrying the
  value that property would have at evaluation time.  The `timestamp`,
  `valid_for_seconds`, `route`, `route_readable` and `raw_response` fields of
  the source dataclass are not needed by any theorem and are omitted.
* The HTTP transport plus per-source JSON parsing/normalisation inside
  `_fetch_1inch` / `_fetch_paraswap` / `_fetch_0x` is modelled as an oracle
  `Net` (aggregator name and swap params in, optional normalised quote out);
  the control flow around it - token resolution before the HTTP call, the
  per-source `try/except` that converts any failure into `None`, and the
  gather loop that drops exceptions - is embedded faithfully.
* `f`-string number formatting inside recommendation texts is not modelled;
  the fixed template part of each string is kept.
-/

/-- `NormalizedQuote` from `quote_fetcher.py` (decimals as `ℚ`, see header). -/
structure NormalizedQuote where
  source : String
  input_token : String
  output_token : String
  input_amount : ℚ
  output_amount : ℚ
  price : ℚ
  price_impact : ℚ
  gas_estimate : ℕ
  gas_price_gwei : ℚ
  gas_cost_usd : ℚ
  effective_rate : ℚ
  protocols : List String
  is_expired : Bool
  deriving DecidableEq, Repr

/-- `SwapParams` from `quote_fetcher.py`. -/
structure SwapParams where
  from_token : String
  to_token : String
  amount : ℚ
  chain : String := "ethereum"
  slippage : ℚ := 1/2
  deriving DecidableEq, Repr

/-- The `TOKEN_ADDRESSES` table of `quote_fetcher.py`, as a per-chain
association list (Python dict lookup by chain, then by upper-cased symbol). -/
def TOKEN_ADDRESSES (chain : String) : List (String × String) :=
  if chain = "ethereum" then
    [("ETH", "0xEeeeeEeeeEeEeeEeEeEeeEEEeeeeEeeeeeeeEEeE"),
     ("WETH", "0xC02aaA39b223FE8D0A0e5C4F27eAD9083C756Cc2"),
     ("USDC", "0xA0b86991c6218b36c1d19D4a2e9Eb0cE3606eB48"),
     ("USDT", "0xdAC17F958D2ee523a2206206994597C13D831ec7"),
     ("DAI", "0x6B175474E89094C44Da98b954EescdDEAC495271"),
     ("WBTC", "0x2260FAC5E5542a773Aa44fBCfeDf7C193bc2C599")]
  else if chain = "arbitrum" then
    [("ETH", "0xEeeeeEeeeEeEeeEeEeEeeEEEeeeeEeeeeeeeEEeE"),
     ("WETH", "0x82aF49447D8a07e3bd95BD0d56f35241523fBab1"),
     ("USDC", "0xaf88d065e77c8cC2239327C5EDb3A432268e5831"),
     ("USDT", "0xFd086bC7CD5C481DCC9C85ebE478A1C0b69FCbb9")]
  else if chain = "polygon" then
    [("MATIC", "0xEeeeeEeeeEeEeeEeEeEeeEEEeeeeEeeeeeeeEEeE"),
     ("WMATIC", "0x0d500B1d8E8eF31E21C99d1Db9A6444d3ADf1270"),
     ("USDC", "0x2791Bca1f2de4661ED88A30C99A7a9449Aa84174"),
     ("USDT", "0xc2132D05D31c914a87C6611C10748AEb04B58e8F")]
  else []

/-- The `CHAIN_IDS` dict of `quote_fetcher.py`. -/
def CHAIN_IDS (chain : String) : Option ℕ :=
  if chain = "ethereum" then some 1
  else if chain = "arbitrum" then some 42161
  else if chain = "polygon" then some 137
  else if chain = "optimism" then some 10
  else none

/-- Python `str.upper()`, character by character (structurally recursive so
that proofs can evaluate it; `String.toUpper` itself is well-founded
recursion over byte positions and does not reduce). -/
def str_upper (s : String) : String := ⟨s.data.map Char.toUpper⟩

/-- `QuoteFetcher.resolve_token_address`: symbol/address to chain address;
`Except.error` models the `ValueError` raised for an unknown token.
`startswith("0x")` and `len(symbol)` are taken over the character list. -/
def resolve_token_address (symbol chain : String) : Except String String :=
  let symbol_upper := str_upper symbol
  let chain_tokens := TOKEN_ADDRESSES chain
  match chain_tokens.lookup symbol_upper with
  | some addr => .ok addr
  | none =>
      if List.isPrefixOf "0x".data symbol.data && symbol.data.length == 42 then
        .ok symbol
      else .error ("Unknown token: " ++ symbol ++ " on " ++ chain)

/-- The aggregator iteration order of the `QuoteFetcher.AGGREGATORS` dict. -/
def AGGREGATOR_NAMES : List String := ["1inch", "paraswap", "0x"]

/-- Chain ids present in `AGGREGATORS[name]["chains"]`. -/
def aggregator_chains (agg : String) : List ℕ :=
  if agg = "0x" then [1, 137, 42161] else [1, 137, 42161, 10]

/-- Oracle for the HTTP call + JSON parse + normalisation of one source
(see header): `none` models any timeout / non-2xx / parse failure. -/
def Net : Type := String → SwapParams → Option NormalizedQuote

/-- One `_fetch_<source>` body: both tokens are resolved *before* the HTTP
call; a resolution failure escapes as an exception (`Except.error`).  The
second component records whether the HTTP call was issued. -/
def fetch_source (net : Net) (agg : String) (params : SwapParams) :
    Except String (Option NormalizedQuote) × Bool :=
  match resolve_token_address params.from_token params.chain with
  | .error e => (.error e, false)
  | .ok _ =>
      match resolve_token_address params.to_token params.chain with
      | .error e => (.error e, false)
      | .ok _ => (.ok (net agg params), true)

/-- `QuoteFetcher._fetch_with_timeout`: the `try/except` converts every
exception from the per-source fetch into `None`. -/
def fetch_with_timeout (net : Net) (agg : String) (params : SwapParams) :
    Option NormalizedQuote × Bool :=
  match fetch_source net agg params with
  | (.error _, b) => (none, b)
  | (.ok q, b) => (q, b)

/-- `QuoteFetcher.fetch_all_quotes`: one task per aggregator supporting the
chain id (default id 1), gathered with exceptions dropped.  The result's
first component is `Except` because a Python coroutine may in principle
raise; the second records whether any HTTP call was issued. -/
def fetch_all_quotes (net : Net) (params : SwapParams) :
    Except String (List NormalizedQuote) × Bool :=
  let chain_id := (CHAIN_IDS params.chain).getD 1
  let active := AGGREGATOR_NAMES.filter (fun a => (aggregator_chains a).contains chain_id)
  let results := active.map (fun a => fetch_with_timeout net a params)
  (.ok (results.filterMap (·.1)), results.any (·.2))

/-- `RouteAnalysis` from `route_optimizer.py`. -/
structure RouteAnalysis where
  quote : NormalizedQuote
  rank : ℕ
  score : ℚ
  recommendation : String
  savings_vs_worst : ℚ
  savings_pct : ℚ
  deriving DecidableEq, Repr

/-- `RouteComparison` from `route_optimizer.py`. -/
structure RouteComparison where
  best_route : RouteAnalysis
  all_routes : List RouteAnalysis
  total_quotes : ℕ
  price_spread : ℚ
  recommendation : String
  deriving DecidableEq, Repr

/-- `RouteOptimizer.SOURCE_RELIABILITY` with the `.get(source, 0.85)` default. -/
def SOURCE_RELIABILITY (source : String) : ℚ :=
  if source = "1inch" then 0.95
  else if source = "Paraswap" then 0.92
  else if source = "0x" then 0.90
  else if source = "Uniswap" then 0.98
  else if source = "Curve" then 0.97
  else if source = "Balancer" then 0.93
  else 0.85

/-- Python `max` over a list of rationals (only ever applied to non-empty
lists in the source; the `[]` case is arbitrary). -/
def rmax : List ℚ → ℚ
  | [] => 0
  | [x] => x
  | x :: y :: xs => max x (rmax (y :: xs))

/-- Python `min` over a list of rationals (only ever applied to non-empty
lists in the source; the `[]` case is arbitrary). -/
def rmin : List ℚ → ℚ
  | [] => 0
  | [x] => x
  | x :: y :: xs => min x (rmin (y :: xs))

/-- `RouteOptimizer._calculate_score`. -/
def calculate_score (quote : NormalizedQuote) (all_quotes : List NormalizedQuote) : ℚ :=
  let max_output := rmax (all_quotes.map (·.effective_rate))
  let min_output := rmin (all_quotes.map (·.effective_rate))
  let output_range := max_output - min_output
  let output_score :=
    if 0 < output_range then (quote.effective_rate - min_output) / output_range * 60
    else 60
  let max_gas := rmax (all_quotes.map (·.gas_cost_usd))
  let min_gas := rmin (all_quotes.map (·.gas_cost_usd))
  let gas_range := max_gas - min_gas
  let gas_score :=
    if 0 < gas_range then (1 - (quote.gas_cost_usd - min_gas) / gas_range) * 20
    else 20
  let reliability_score := SOURCE_RELIABILITY quote.source * 10
  let freshness_score : ℚ := if quote.is_expired then 0 else 10
  output_score + gas_score + reliability_score + freshness_score

/-- The comparison used by `analyses.sort(key=lambda x: x.score, reverse=True)`:
descending by score.  Python's sort is stable, as is `List.insertionSort`. -/
def scoreOrder (a b : RouteAnalysis) : Prop := b.score ≤ a.score

instance : DecidableRel scoreOrder :=
  fun a b => inferInstanceAs (Decidable (b.score ≤ a.score))

instance : IsTotal RouteAnalysis scoreOrder :=
  ⟨fun a b => le_total b.score a.score⟩

instance : IsTrans RouteAnalysis scoreOrder :=
  ⟨fun _ _ _ h1 h2 => le_trans h2 h1⟩

/-- `RouteOptimizer._get_recommendation`. -/
def get_recommendation (a : RouteAnalysis) (is_best : Bool) : String :=
  if is_best then
    if 90 ≤ a.score then "BEST CHOICE - Optimal price and efficiency"
    else if 80 ≤ a.score then "RECOMMENDED - Strong overall value"
    else "BEST AVAILABLE - Consider waiting for better rates"
  else
    if 85 ≤ a.score then "Good alternative with competitive pricing"
    else if 70 ≤ a.score then "Acceptable but not optimal"
    else "Not recommended - significantly worse than best"

/-- The `for i, analysis in enumerate(analyses)` loop of `rank_quotes`:
assigns `rank = i + 1`, savings versus the worst output, and the
recommendation text (best route when `i == 0`). -/
def assignRanks (worst_output : ℚ) : ℕ → List RouteAnalysis → List RouteAnalysis
  | _, [] => []
  | i, a :: rest =>
      let a1 : RouteAnalysis :=
        { a with
          rank := i + 1
          savings_vs_worst := a.quote.output_amount - worst_output
          savings_pct :=
            if 0 < worst_output then
              (a.quote.output_amount - worst_output) / worst_output * 100
            else a.savings_pct }
      let a2 := { a1 with recommendation := get_recommendation a1 (i == 0) }
      a2 :: assignRanks worst_output (i + 1) rest

/-- The `RouteAnalysis` record built inside the scoring loop of
`rank_quotes` before sorting (`rank=0`, empty recommendation, zero savings). -/
def initial_analysis (all_quotes : List NormalizedQuote) (q : NormalizedQuote) :
    RouteAnalysis :=
  { quote := q, rank := 0, score := calculate_score q all_quotes,
    recommendation := "", savings_vs_worst := 0, savings_pct := 0 }

/-- `RouteOptimizer.rank_quotes`. -/
def rank_quotes (quotes : List NormalizedQuote) : List RouteAnalysis :=
  if quotes.isEmpty then []
  else
    let analyses := quotes.map (initial_analysis quotes)
    let sorted := List.insertionSort scoreOrder analyses
    let worst_output := rmin (sorted.map (·.quote.output_amount))
    assignRanks worst_output 0 sorted

/-- `RouteOptimizer.compare_routes`.  The source indexes `analyses[0]`,
which is only reached with a non-empty list; the unreachable empty case is
mapped to `none`. -/
def compare_routes (quotes : List NormalizedQuote) : Option RouteComparison :=
  if quotes.isEmpty then none
  else
    match rank_quotes quotes with
    | [] => none
    | best :: rest =>
        let analyses := best :: rest
        let worst_output := rmin (analyses.map (·.quote.output_amount))
        let best_output := best.quote.output_amount
        let price_spread :=
          if 0 < worst_output then (best_output - worst_output) / worst_output * 100
          else 0
        let overall_rec :=
          if price_spread < 0.1 then
            "All sources offer similar rates. Choose based on preference."
          else if price_spread < 1.0 then
            "Best route saves. Worth optimizing."
          else
            "Significant spread. Use best route."
        some { best_route := best, all_routes := analyses,
               total_quotes := quotes.length, price_spread := price_spread,
               recommendation := overall_rec }

/-- `SplitAllocation` from `split_calculator.py`.  The `price_impact` field
of the source (scaled by `float(output_ratio) ** 0.5`, an irrational square
root) is not referenced by any theorem and is omitted. -/
structure SplitAllocation where
  source : String
  percentage : ℚ
  input_amount : ℚ
  expected_output : ℚ
  gas_cost_usd : ℚ
  deriving DecidableEq, Repr

/-- `SplitRecommendation` from `split_calculator.py`. -/
structure SplitRecommendation where
  allocations : List SplitAllocation
  total_input : ℚ
  total_output : ℚ
  single_venue_output : ℚ
  improvement_amount : ℚ
  improvement_pct : ℚ
  total_gas_cost : ℚ
  net_benefit : ℚ
  recommendation : String
  is_split_beneficial : Bool
  deriving DecidableEq, Repr

/-- The `SplitCalculator` constructor arguments with their defaults. -/
structure SplitCalculator where
  min_split_size_usd : ℚ := 5000
  max_venues : ℕ := 4
  min_allocation_pct : ℚ := 10
  deriving DecidableEq, Repr

/-- `SplitCalculator._create_allocation` (without the omitted sqrt-scaled
`price_impact` field). -/
def create_allocation (quote : NormalizedQuote) (pct amount : ℚ) : SplitAllocation :=
  let output_ratio := if 0 < quote.input_amount then amount / quote.input_amount else 0
  { source := quote.source
    percentage := pct
    input_amount := amount
    expected_output := quote.output_amount * output_ratio
    gas_cost_usd := quote.gas_cost_usd }

/-- The per-venue weight `1 / (q.price_impact + 0.01)` of
`SplitCalculator._optimize_split` (the `0.01` avoids division by zero). -/
def impact_weight (q : NormalizedQuote) : ℚ := 1 / (q.price_impact + 0.01)

/-- The `for i, quote in enumerate(venues)` loop of
`SplitCalculator._optimize_split`: `n` is `len(venues)`, `i` the running
index and `remaining` the amount still unallocated.

Idealization (deliberate, recorded as the divergence of the exact-sum
invariant): this models the loop under exact arithmetic, i.e. the
fixed-point semantics the spec mandates.  The source instead computes the
weights and `pct` in binary floats, the last venue's
`pct = float(remaining / total_amount * 100)` through a 53-bit float
round-trip, and every `Decimal` product, difference and quotient in the
default 28-significant-digit context (`split_calculator.py:177-197`).
Those roundings make the stored amounts' mathematical sum miss
`total_amount` by roughly `1e-26` to `1e-15` on generic inputs, so the
theorems below about exact sums describe the intended exact-decimal
semantics, not the program's float behaviour. -/
def allocLoop (cal : SplitCalculator) (total_amount total_weight : ℚ) (n : ℕ) :
    ℕ → ℚ → List NormalizedQuote → List SplitAllocation
  | _, _, [] => []
  | i, remaining, q :: rest =>
      let pct0 := impact_weight q / total_weight * 100
      if pct0 < cal.min_allocation_pct ∧ i < n - 1 then
        allocLoop cal total_amount total_weight n (i + 1) remaining rest
      else
        let pct := if i = n - 1 then remaining / total_amount * 100 else pct0
        let amount := total_amount * (pct / 100)
        if 0 < amount then
          create_allocation q pct amount ::
            allocLoop cal total_amount total_weight n (i + 1) (remaining - amount) rest
        else
          allocLoop cal total_amount total_weight n (i + 1) remaining rest

/-- The comparison used by
`sorted(quotes, key=lambda q: q.effective_rate, reverse=True)`. -/
def effRateOrder (a b : NormalizedQuote) : Prop := b.effective_rate ≤ a.effective_rate

instance : DecidableRel effRateOrder :=
  fun a b => inferInstanceAs (Decidable (b.effective_rate ≤ a.effective_rate))

instance : IsTotal NormalizedQuote effRateOrder :=
  ⟨fun a b => le_total b.effective_rate a.effective_rate⟩

instance : IsTrans NormalizedQuote effRateOrder :=
  ⟨fun _ _ _ h1 h2 => le_trans h2 h1⟩

/-- `SplitCalculator._optimize_split`. -/
def optimize_split (cal : SplitCalculator) (quotes : List NormalizedQuote)
    (total_amount : ℚ) : List SplitAllocation :=
  let sorted_quotes := List.insertionSort effRateOrder quotes
  let venues := sorted_quotes.take cal.max_venues
  match venues with
  | [v] => [create_allocation v 100 total_amount]
  | vs =>
      let total_weight := (vs.map impact_weight).sum
      allocLoop cal total_amount total_weight vs.length 0 total_amount vs

/-- Python `max(quotes, key=lambda q: q.effective_rate)` on the non-empty
list `q :: qs` (the first maximal element wins). -/
def max_by_eff_rate (q : NormalizedQuote) (qs : List NormalizedQuote) : NormalizedQuote :=
  qs.foldl (fun best x => if best.effective_rate < x.effective_rate then x else best) q

/-- `SplitCalculator._single_venue_recommendation`. -/
def single_venue_recommendation (quote : NormalizedQuote) (amount : ℚ) :
    SplitRecommendation :=
  { allocations := [create_allocation quote 100 amount]
    total_input := amount
    total_output := quote.output_amount
    single_venue_output := quote.output_amount
    improvement_amount := 0
    improvement_pct := 0
    total_gas_cost := quote.gas_cost_usd
    net_benefit := 0
    recommendation := "Single venue is optimal for this trade size."
    is_split_beneficial := false }

/-- `SplitCalculator.calculate_split`. -/
def calculate_split (cal : SplitCalculator) (quotes : List NormalizedQuote)
    (total_amount : ℚ) (price_usd : ℚ := 2500) : Option SplitRecommendation :=
  match quotes with
  | [] => none
  | q :: qs =>
      let trade_size_usd := total_amount * price_usd
      if trade_size_usd < cal.min_split_size_usd then
        some (single_venue_recommendation (max_by_eff_rate q qs) total_amount)
      else
        let allocations := optimize_split cal (q :: qs) total_amount
        if allocations.isEmpty then
          some (single_venue_recommendation (max_by_eff_rate q qs) total_amount)
        else
          let total_output := (allocations.map (·.expected_output)).sum
          let total_gas := (allocations.map (·.gas_cost_usd)).sum
          let best_single := max_by_eff_rate q qs
          let single_venue_output := best_single.output_amount
          let improvement := total_output - single_venue_output
          let improvement_pct :=
            if 0 < single_venue_output then improvement / single_venue_output * 100
            else 0
          let extra_gas := total_gas - best_single.gas_cost_usd
          let net_benefit := improvement - extra_gas
          let is_beneficial := 0 < net_benefit
          some { allocations := allocations
                 total_input := total_amount
                 total_output := total_output
                 single_venue_output := single_venue_output
                 improvement_amount := improvement
                 improvement_pct := improvement_pct
                 total_gas_cost := total_gas
                 net_benefit := net_benefit
                 recommendation :=
                   if is_beneficial then "Split order saves (improvement after gas)"
                   else "Single venue preferred. Split would cost extra gas overhead."
                 is_split_beneficial := is_beneficial }

/-- `MEVRiskLevel` from `mev_assessor.py`. -/
inductive MEVRiskLevel where
  | LOW
  | MEDIUM
  | HIGH
  | CRITICAL
  deriving DecidableEq, Repr

/-- `MEVRiskFactor` from `mev_assessor.py`. -/
structure MEVRiskFactor where
  name : String
  description : String
  score : ℚ
  weight : ℚ
  deriving DecidableEq, Repr

/-- `MEVProtectionOption` from `mev_assessor.py`. -/
structure MEVProtectionOption where
  name : String
  description : String
  effectiveness : ℚ
  trade_off : String
  url : Option String := none
  deriving DecidableEq, Repr

/-- `MEVAssessment` from `mev_assessor.py`. -/
structure MEVAssessment where
  risk_level : MEVRiskLevel
  risk_score : ℚ
  estimated_mev_exposure_usd : ℚ
  risk_factors : List MEVRiskFactor
  protection_options : List MEVProtectionOption
  recommendation : String
  deriving DecidableEq, Repr

/-- `MEVAssessor.PROTECTION_OPTIONS[0]`. -/
def opt_flashbots : MEVProtectionOption :=
  { name := "Flashbots Protect"
    description := "Submit transaction to private mempool via Flashbots"
    effectiveness := 95
    trade_off := "Slightly slower confirmation, requires ETH mainnet"
    url := some "https://docs.flashbots.net/flashbots-protect/overview" }

/-- `MEVAssessor.PROTECTION_OPTIONS[1]`. -/
def opt_cowswap : MEVProtectionOption :=
  { name := "CoW Swap"
    description := "Batch auction protocol with built-in MEV protection"
    effectiveness := 90
    trade_off := "May have longer settlement time, limited token pairs"
    url := some "https://cow.fi/" }

/-- `MEVAssessor.PROTECTION_OPTIONS[2]`. -/
def opt_mev_blocker : MEVProtectionOption :=
  { name := "MEV Blocker"
    description := "RPC endpoint that routes to multiple builders"
    effectiveness := 85
    trade_off := "Requires custom RPC setup"
    url := some "https://mevblocker.io/" }

/-- `MEVAssessor.PROTECTION_OPTIONS[3]`. -/
def opt_private_tx : MEVProtectionOption :=
  { name := "Private Transaction"
    description := "Send directly to block builders"
    effectiveness := 80
    trade_off := "May pay premium for inclusion" }

/-- `MEVAssessor.PROTECTION_OPTIONS[4]`. -/
def opt_slippage_tightening : MEVProtectionOption :=
  { name := "Slippage Tightening"
    description := "Set tight slippage tolerance to reject sandwich"
    effectiveness := 50
    trade_off := "Trade may fail if market moves" }

/-- `MEVAssessor.PROTECTION_OPTIONS`. -/
def PROTECTION_OPTIONS : List MEVProtectionOption :=
  [opt_flashbots, opt_cowswap, opt_mev_blocker, opt_private_tx, opt_slippage_tightening]

/-- The `MEVAssessor` constructor arguments with their defaults. -/
structure MEVAssessor where
  eth_price_usd : ℚ := 2500
  volatility_multiplier : ℚ := 1
  deriving DecidableEq, Repr

/-- `MEVAssessor._score_trade_size`. -/
def score_trade_size (trade_value_usd : ℚ) : ℚ :=
  if trade_value_usd < 1000 then 10
  else if trade_value_usd < 5000 then 25
  else if trade_value_usd < 10000 then 40
  else if trade_value_usd < 50000 then 60
  else if trade_value_usd < 100000 then 80
  else 95

/-- `MEVAssessor._score_price_impact`. -/
def score_price_impact (price_impact : ℚ) : ℚ :=
  if price_impact < 0.1 then 10
  else if price_impact < 0.5 then 30
  else if price_impact < 1.0 then 50
  else if price_impact < 2.0 then 70
  else if price_impact < 5.0 then 85
  else 95

/-- `MEVAssessor._score_route_complexity`. -/
def score_route_complexity (protocols : List String) : ℚ :=
  let num_protocols := protocols.length
  if num_protocols ≤ 1 then 20
  else if num_protocols = 2 then 40
  else if num_protocols = 3 then 60
  else 80

/-- `MEVAssessor._score_liquidity`. -/
def score_liquidity (gas_estimate : ℕ) : ℚ :=
  if gas_estimate < 100000 then 20
  else if gas_estimate < 150000 then 35
  else if gas_estimate < 200000 then 50
  else if gas_estimate < 300000 then 70
  else 85

/-- `MEVAssessor._classify_risk`. -/
def classify_risk (risk_score : ℚ) : MEVRiskLevel :=
  if risk_score < 25 then .LOW
  else if risk_score < 50 then .MEDIUM
  else if risk_score < 75 then .HIGH
  else .CRITICAL

/-- `MEVAssessor._estimate_mev_exposure`. -/
def estimate_mev_exposure (trade_value_usd risk_score price_impact : ℚ) : ℚ :=
  let base_rate := risk_score / 100 * 0.02
  let impact_multiplier := 1 + price_impact / 100
  let estimated_mev := trade_value_usd * base_rate * impact_multiplier
  min estimated_mev (trade_value_usd * 0.05)

/-- `MEVAssessor._get_protection_options` (`trade_value_usd` is accepted but
unused, as in the source; the slices `[4]`, `[2:5]`, `[0:4]` are spelled
against the five-element list). -/
def get_protection_options (risk_level : MEVRiskLevel) (_trade_value_usd : ℚ) :
    List MEVProtectionOption :=
  match risk_level with
  | .LOW => [opt_slippage_tightening]
  | .MEDIUM => [opt_mev_blocker, opt_private_tx, opt_slippage_tightening]
  | .HIGH => [opt_flashbots, opt_cowswap, opt_mev_blocker, opt_private_tx]
  | .CRITICAL => PROTECTION_OPTIONS

/-- `MEVAssessor._generate_recommendation` (numeric interpolation omitted,
see header). -/
def generate_recommendation (risk_level : MEVRiskLevel) (_mev_exposure _v : ℚ) : String :=
  match risk_level with
  | .LOW => "LOW MEV RISK: Safe to execute via public mempool."
  | .MEDIUM => "MEDIUM MEV RISK: Consider using MEV Blocker or tight slippage."
  | .HIGH => "HIGH MEV RISK: Strongly recommend Flashbots Protect or CoW Swap."
  | .CRITICAL => "CRITICAL MEV RISK: Use private transaction ONLY."

/-- `MEVAssessor._calculate_risk_factors` (description strings kept without
their numeric interpolation). -/
def calculate_risk_factors (A : MEVAssessor) (quote : NormalizedQuote)
    (trade_value_usd : ℚ) (is_volatile_token : Bool) : List MEVRiskFactor :=
  [ { name := "Trade Size"
      description := "trade attracts MEV searchers"
      score := score_trade_size trade_value_usd
      weight := 0.35 },
    { name := "Price Impact"
      description := "impact creates arbitrage opportunity"
      score := score_price_impact quote.price_impact
      weight := 0.25 },
    { name := "Route Complexity"
      description := "DEX(s) in route increases surface area"
      score := score_route_complexity quote.protocols
      weight := 0.15 },
    { name := "Token Volatility"
      description := "Volatile tokens enable larger sandwich profits"
      score := min 100 ((if is_volatile_token then (80 : ℚ) else 30) * A.volatility_multiplier)
      weight := 0.15 },
    { name := "Liquidity Depth"
      description := "Lower liquidity increases MEV opportunity"
      score := score_liquidity quote.gas_estimate
      weight := 0.10 } ]

/-- `MEVAssessor.assess_risk`. -/
def assess_risk (A : MEVAssessor) (quote : NormalizedQuote)
    (trade_value_usd : ℚ) (is_volatile_token : Bool := false) : MEVAssessment :=
  let risk_factors := calculate_risk_factors A quote trade_value_usd is_volatile_token
  let total_weight := (risk_factors.map (·.weight)).sum
  let risk_score := (risk_factors.map (fun f => f.score * f.weight)).sum / total_weight
  let risk_level := classify_risk risk_score
  let mev_exposure := estimate_mev_exposure trade_value_usd risk_score quote.price_impact
  let protection_options := get_protection_options risk_level trade_value_usd
  let recommendation := generate_recommendation risk_level mev_exposure trade_value_usd
  { risk_level := risk_level
    risk_score := risk_score
    estimated_mev_exposure_usd := mev_exposure
    risk_factors := risk_factors
    protection_options := protection_options
    recommendation := recommendation }

/-! ### Concrete inputs used by counterexamples and witnesses
(the quote data is taken from the `demo()` functions of the source files). -/

/-- The 1inch quote of the `route_optimizer.py` demo. -/
def demo_quote_1inch : NormalizedQuote :=
  { source := "1inch", input_token := "ETH", output_token := "USDC",
    input_amount := 10, output_amount := 25432.18, price := 2543.218,
    price_impact := 0.12, gas_estimate := 150000, gas_price_gwei := 30,
    gas_cost_usd := 11.25, effective_rate := 2542.09,
    protocols := ["Uniswap V3"], is_expired := false }

/-- The Paraswap quote of the `route_optimizer.py` demo. -/
def demo_quote_paraswap : NormalizedQuote :=
  { source := "Paraswap", input_token := "ETH", output_token := "USDC",
    input_amount := 10, output_amount := 25398.45, price := 2539.845,
    price_impact := 0.15, gas_estimate := 180000, gas_price_gwei := 30,
    gas_cost_usd := 13.50, effective_rate := 2538.50,
    protocols := ["Curve", "Uniswap V2"], is_expired := false }

/-- The 0x quote of the `route_optimizer.py` demo. -/
def demo_quote_0x : NormalizedQuote :=
  { source := "0x", input_token := "ETH", output_token := "USDC",
    input_amount := 10, output_amount := 25410.00, price := 2541.000,
    price_impact := 0.14, gas_estimate := 160000, gas_price_gwei := 30,
    gas_cost_usd := 12.00, effective_rate := 2539.80,
    protocols := ["Balancer", "SushiSwap"], is_expired := false }

/-- The three-quote list of the `route_optimizer.py` demo. -/
def demoQuotes : List NormalizedQuote :=
  [demo_quote_1inch, demo_quote_paraswap, demo_quote_0x]

/-- A swap request whose `from_token` is unknown on ethereum (not in
`TOKEN_ADDRESSES["ethereum"]` and not a 42-character `0x` address). -/
def unknown_params : SwapParams :=
  { from_token := "FOO", to_token := "USDC", amount := 1,
    chain := "ethereum", slippage := 1/2 }

/-- A network oracle on which every source would answer with a quote. -/
def demo_net : Net := fun _ _ => some demo_quote_1inch

/-- Is an `Except` value an error (a raised Python exception)? -/
def isErr {ε α : Type} : Except ε α → Bool
  | .error _ => true
  | .ok _ => false

/-! ### Helper lemmas -/

lemma map_const_none_aux {α : Type} (l : List α) :
    (l.map fun _ => ((none : Option NormalizedQuote), false)).filterMap (·.1) = []
    ∧ (l.map fun _ => ((none : Option NormalizedQuote), false)).any (·.2) = false := by
  induction l with
  | nil => exact ⟨rfl, rfl⟩
  | cons a l ih => simp [List.filterMap_cons, ih]

/-! ### Claims -/

/-- C10: on an empty quote list every downstream consumer degrades without
error: `rank_quotes` returns `[]`, while `compare_routes` and
`calculate_split` return `none` instead of a result object. -/
theorem empty_quotes_degrade_gracefully (cal : SplitCalculator)
    (total_amount price_usd : ℚ) :
    rank_quotes [] = [] ∧ compare_routes [] = none
    ∧ calculate_split cal [] total_amount price_usd = none :=
  ⟨rfl, rfl, rfl⟩

/-- C6: `_classify_risk` maps 25.0 to MEDIUM, 50.0 to HIGH, 75.0 to
CRITICAL; in general scores below 25 are LOW, in `[25,50)` MEDIUM, in
`[50,75)` HIGH, and 75 or above CRITICAL. -/
theorem classify_risk_boundaries :
    classify_risk 25 = .MEDIUM ∧ classify_risk 50 = .HIGH
    ∧ classify_risk 75 = .CRITICAL
    ∧ (∀ s : ℚ, s < 25 → classify_risk s = .LOW)
    ∧ (∀ s : ℚ, 25 ≤ s → s < 50 → classify_risk s = .MEDIUM)
    ∧ (∀ s : ℚ, 50 ≤ s → s < 75 → classify_risk s = .HIGH)
    ∧ (∀ s : ℚ, 75 ≤ s → classify_risk s = .CRITICAL) := by
  refine ⟨by norm_num [classify_risk], by norm_num [classify_risk],
    by norm_num [classify_risk], ?_, ?_, ?_, ?_⟩ <;>
    · intro s
      intros
      unfold classify_risk
      split_ifs <;> first | rfl | linarith

/-- Witness for C6 at concrete scores in each band. -/
theorem classify_risk_boundaries_witness :
    classify_risk 10 = .LOW ∧ classify_risk 30 = .MEDIUM
    ∧ classify_risk 60 = .HIGH ∧ classify_risk 80 = .CRITICAL :=
  ⟨classify_risk_boundaries.2.2.2.1 10 (by norm_num),
   classify_risk_boundaries.2.2.2.2.1 30 (by norm_num) (by norm_num),
   classify_risk_boundaries.2.2.2.2.2.1 60 (by norm_num) (by norm_num),
   classify_risk_boundaries.2.2.2.2.2.2 80 (by norm_num)⟩

/-- C8: the estimated MEV exposure equals
`min(trade_value * (risk_score/100 * 0.02) * (1 + price_impact/100),
trade_value * 0.05)`, and in particular never exceeds 5% of the trade
value. -/
theorem mev_exposure_formula_and_cap (A : MEVAssessor) (quote : NormalizedQuote)
    (v : ℚ) (volatile : Bool) :
    (assess_risk A quote v volatile).estimated_mev_exposure_usd
      = min (v * ((assess_risk A quote v volatile).risk_score / 100 * 0.02)
              * (1 + quote.price_impact / 100))
            (v * 0.05)
    ∧ (assess_risk A quote v volatile).estimated_mev_exposure_usd ≤ v * 0.05 :=
  ⟨rfl, min_le_right _ _⟩

/-- Counterexample for C4: the option sets are not cumulative across risk
levels - "Slippage Tightening" (`PROTECTION_OPTIONS[4]`) is offered at
MEDIUM but dropped at HIGH, so MEDIUM ⊄ HIGH. -/
theorem protection_options_medium_not_in_high :
    opt_slippage_tightening ∈ get_protection_options .MEDIUM 50000
    ∧ opt_slippage_tightening ∉ get_protection_options .HIGH 50000 := by
  decide

/-- C4 (amended): LOW's options are contained in MEDIUM's, HIGH's in
CRITICAL's, and CRITICAL returns the full option set; but MEDIUM's set is
not contained in HIGH's (Slippage Tightening is dropped at HIGH). -/
theorem protection_options_partial_cumulative (v : ℚ) :
    get_protection_options .LOW v ⊆ get_protection_options .MEDIUM v
    ∧ get_protection_options .HIGH v ⊆ get_protection_options .CRITICAL v
    ∧ get_protection_options .CRITICAL v = PROTECTION_OPTIONS
    ∧ ¬ get_protection_options .MEDIUM v ⊆ get_protection_options .HIGH v := by
  refine ⟨?_, ?_, rfl, ?_⟩
  · show [opt_slippage_tightening]
      ⊆ [opt_mev_blocker, opt_private_tx, opt_slippage_tightening]
    decide
  · show [opt_flashbots, opt_cowswap, opt_mev_blocker, opt_private_tx]
      ⊆ PROTECTION_OPTIONS
    decide
  · show ¬ [opt_mev_blocker, opt_private_tx, opt_slippage_tightening]
      ⊆ [opt_flashbots, opt_cowswap, opt_mev_blocker, opt_private_tx]
    decide

/-- Counterexample for C1: with an unknown `from_token` ("FOO" on
ethereum), `fetch_all_quotes` does not raise a resolution error - it
returns normally with the empty list (and no network call is made, even
on an oracle where every source would answer). -/
theorem unknown_token_fetch_returns_normally :
    isErr (resolve_token_address "FOO" "ethereum") = true
    ∧ fetch_all_quotes demo_net unknown_params = (Except.ok [], false) :=
  ⟨rfl, rfl⟩

/-- C1 (amended): when either token fails resolution on the requested
chain, each per-source fetch fails during payload construction - before
its HTTP call - and the failure is caught per source, so `fetch_all_quotes`
performs no network call and returns the empty list normally instead of
raising. -/
theorem unknown_token_no_network_and_empty (net : Net) (params : SwapParams)
    (h : isErr (resolve_token_address params.from_token params.chain) = true
       ∨ isErr (resolve_token_address params.to_token params.chain) = true) :
    fetch_all_quotes net params = (Except.ok [], false) := by
  have hf : ∀ agg, fetch_with_timeout net agg params = (none, false) := by
    intro agg
    unfold fetch_with_timeout fetch_source
    rcases h with h | h
    · cases hr : resolve_token_address params.from_token params.chain with
      | error e => simp
      | ok a => rw [hr] at h; simp [isErr] at h
    · cases hr : resolve_token_address params.from_token params.chain with
      | error e => simp
      | ok a =>
        cases hr2 : resolve_token_address params.to_token params.chain with
        | error e => simp
        | ok b => rw [hr2] at h; simp [isErr] at h
  simp only [fetch_all_quotes]
  rw [List.map_congr_left (fun a _ => hf a)]
  rw [(map_const_none_aux _).1, (map_const_none_aux _).2]

/-- Witness for C1 (amended) at the concrete unknown-token request. -/
theorem unknown_token_no_network_and_empty_witness :
    (isErr (resolve_token_address unknown_params.from_token unknown_params.chain) = true
      ∨ isErr (resolve_token_address unknown_params.to_token unknown_params.chain) = true)
    ∧ fetch_all_quotes demo_net unknown_params = (Except.ok [], false) :=
  ⟨Or.inl rfl,
   unknown_token_no_network_and_empty demo_net unknown_params (Or.inl rfl)⟩

lemma score_trade_size_mono {v1 v2 : ℚ} (h : v1 ≤ v2) :
    score_trade_size v1 ≤ score_trade_size v2 := by
  unfold score_trade_size
  split_ifs <;> linarith

lemma assess_risk_score_eq (A : MEVAssessor) (quote : NormalizedQuote)
    (v : ℚ) (volatile : Bool) :
    (assess_risk A quote v volatile).risk_score =
      (score_trade_size v * 0.35
        + (score_price_impact quote.price_impact * 0.25
          + (score_route_complexity quote.protocols * 0.15
            + (min 100 ((if volatile then (80 : ℚ) else 30) * A.volatility_multiplier) * 0.15
              + (score_liquidity quote.gas_estimate * 0.10 + 0)))))
      / (0.35 + (0.25 + (0.15 + (0.15 + (0.10 + 0))))) := rfl

/-- C7: with the quote and the volatility flag fixed, the overall
`risk_score` of `assess_risk` is non-decreasing in `trade_value_usd`. -/
theorem assess_risk_score_monotone (A : MEVAssessor) (quote : NormalizedQuote)
    (volatile : Bool) (v1 v2 : ℚ) (h : v1 ≤ v2) :
    (assess_risk A quote v1 volatile).risk_score
      ≤ (assess_risk A quote v2 volatile).risk_score := by
  rw [assess_risk_score_eq, assess_risk_score_eq]
  have hd : (0.35 + (0.25 + (0.15 + (0.15 + (0.10 + 0)))) : ℚ) = 1 := by norm_num
  rw [hd, div_one, div_one]
  have hm := score_trade_size_mono h
  linarith

/-- Witness for C7 at two concrete trade values. -/
theorem assess_risk_score_monotone_witness :
    (assess_risk {} demo_quote_1inch 1000 false).risk_score
      ≤ (assess_risk {} demo_quote_1inch 60000 false).risk_score :=
  assess_risk_score_monotone {} demo_quote_1inch false 1000 60000 (by norm_num)

lemma assignRanks_length (w : ℚ) : ∀ (i : ℕ) (l : List RouteAnalysis),
    (assignRanks w i l).length = l.length := by
  intro i l
  induction l generalizing i with
  | nil => rfl
  | cons a rest ih => simp [assignRanks, ih]

lemma assignRanks_map_score (w : ℚ) : ∀ (i : ℕ) (l : List RouteAnalysis),
    (assignRanks w i l).map (·.score) = l.map (·.score) := by
  intro i l
  induction l generalizing i with
  | nil => rfl
  | cons a rest ih => simp [assignRanks, ih]

lemma rank_quotes_cons (q : NormalizedQuote) (qs : List NormalizedQuote) :
    rank_quotes (q :: qs)
      = assignRanks
          (rmin ((List.insertionSort scoreOrder
                    ((q :: qs).map (initial_analysis (q :: qs)))).map
                  (·.quote.output_amount)))
          0
          (List.insertionSort scoreOrder ((q :: qs).map (initial_analysis (q :: qs)))) :=
  rfl

lemma rank_quotes_sorted_scores (quotes : List NormalizedQuote) :
    ((rank_quotes quotes).map (·.score)).Sorted (· ≥ ·) := by
  cases quotes with
  | nil => simp [rank_quotes]
  | cons q qs =>
    rw [rank_quotes_cons, assignRanks_map_score]
    exact List.pairwise_map.mpr
      (List.sorted_insertionSort scoreOrder ((q :: qs).map (initial_analysis (q :: qs))))

lemma get_assignRanks (w : ℚ) : ∀ (l : List RouteAnalysis) (i j : ℕ)
    (hj : j < (assignRanks w i l).length),
    ((assignRanks w i l).get ⟨j, hj⟩).rank = i + j + 1 := by
  intro l
  induction l with
  | nil => intro i j hj; simp [assignRanks] at hj
  | cons a rest ih =>
    intro i j hj
    cases j with
    | zero => simp [assignRanks]
    | succ j =>
      have hj' : j < (assignRanks w (i + 1) rest).length := by
        rw [assignRanks_length] at hj ⊢
        simpa using Nat.lt_of_succ_lt_succ (by simpa [assignRanks] using hj)
      have hrec := ih (i + 1) j hj'
      simp only [assignRanks, List.get_eq_getElem, List.getElem_cons_succ] at hrec ⊢
      omega

lemma rank_quotes_rank_eq (quotes : List NormalizedQuote) :
    ∀ i (hi : i < (rank_quotes quotes).length),
      ((rank_quotes quotes).get ⟨i, hi⟩).rank = i + 1 := by
  cases quotes with
  | nil => intro i hi; simp [rank_quotes] at hi
  | cons q qs =>
    rw [rank_quotes_cons]
    intro i hi
    have h3 := get_assignRanks _ _ 0 i hi
    omega

/-- C5: for any quote list (in particular any with at least two entries),
the `rank_quotes` output is sorted by non-increasing score and the entry at
position `i` carries rank `i + 1`. -/
theorem rank_quotes_sorted_and_ranked (quotes : List NormalizedQuote)
    (h2 : 2 ≤ quotes.length) :
    ((rank_quotes quotes).map (·.score)).Sorted (· ≥ ·)
    ∧ ∀ i (hi : i < (rank_quotes quotes).length),
        ((rank_quotes quotes).get ⟨i, hi⟩).rank = i + 1 :=
  ⟨rank_quotes_sorted_scores quotes, rank_quotes_rank_eq quotes⟩

/-- Witness for C5 on the three-quote demo list. -/
theorem rank_quotes_sorted_and_ranked_witness :
    2 ≤ demoQuotes.length
    ∧ ((rank_quotes demoQuotes).map (·.score)).Sorted (· ≥ ·) :=
  ⟨by decide, (rank_quotes_sorted_and_ranked demoQuotes (by decide)).1⟩

/-- Tie-break counterexample quote A: effective rate 100, gas 10. -/
def cexA : NormalizedQuote :=
  { source := "srcA", input_token := "ETH", output_token := "USDC",
    input_amount := 10, output_amount := 1000, price := 100,
    price_impact := 0.1, gas_estimate := 150000, gas_price_gwei := 30,
    gas_cost_usd := 10, effective_rate := 100,
    protocols := ["Uniswap V3"], is_expired := false }

/-- Tie-break counterexample quote B: effective rate 90, gas 7 (same total
score as A, strictly lower gas cost). -/
def cexB : NormalizedQuote :=
  { source := "srcB", input_token := "ETH", output_token := "USDC",
    input_amount := 10, output_amount := 900, price := 90,
    price_impact := 0.1, gas_estimate := 150000, gas_price_gwei := 30,
    gas_cost_usd := 7, effective_rate := 90,
    protocols := ["Uniswap V3"], is_expired := false }

/-- Tie-break counterexample quote C: stretches the score ranges. -/
def cexC : NormalizedQuote :=
  { source := "srcC", input_token := "ETH", output_token := "USDC",
    input_amount := 10, output_amount := 800, price := 80,
    price_impact := 0.1, gas_estimate := 150000, gas_price_gwei := 30,
    gas_cost_usd := 0, effective_rate := 0,
    protocols := ["Uniswap V3"], is_expired := false }

/-- Counterexample for C3: quotes A and B have equal total score and B has
strictly lower gas cost, yet with input `[A, B, C]` the ranking keeps A
first (no gas tie-break), and reversing A and B in the input reverses the
output - the order on ties depends on the input order. -/
theorem rank_quotes_no_gas_tiebreak :
    calculate_score cexA [cexA, cexB, cexC] = calculate_score cexB [cexA, cexB, cexC]
    ∧ cexB.gas_cost_usd < cexA.gas_cost_usd
    ∧ (rank_quotes [cexA, cexB, cexC]).map (·.quote.source) = ["srcA", "srcB", "srcC"]
    ∧ (rank_quotes [cexB, cexA, cexC]).map (·.quote.source) = ["srcB", "srcA", "srcC"] := by
  have hA : SOURCE_RELIABILITY "srcA" = 0.85 := rfl
  have hB : SOURCE_RELIABILITY "srcB" = 0.85 := rfl
  have hC : SOURCE_RELIABILITY "srcC" = 0.85 := rfl
  refine ⟨?_, ?_, ?_, ?_⟩
  · norm_num [calculate_score, rmax, rmin, cexA, cexB, cexC, hA, hB]
  · norm_num [cexA, cexB]
  · norm_num [rank_quotes, initial_analysis, calculate_score, rmax, rmin, cexA, cexB, cexC,
      hA, hB, hC, List.insertionSort, List.orderedInsert, scoreOrder, assignRanks,
      get_recommendation]
  · norm_num [rank_quotes, initial_analysis, calculate_score, rmax, rmin, cexA, cexB, cexC,
      hA, hB, hC, List.insertionSort, List.orderedInsert, scoreOrder, assignRanks,
      get_recommendation]

lemma filter_orderedInsert (c : ℚ) (x : RouteAnalysis) :
    ∀ l : List RouteAnalysis,
      (List.orderedInsert scoreOrder x l).filter (fun a => decide (a.score = c))
        = if x.score = c then x :: l.filter (fun a => decide (a.score = c))
          else l.filter (fun a => decide (a.score = c)) := by
  intro l
  induction l with
  | nil => by_cases hx : x.score = c <;> simp [List.orderedInsert, hx]
  | cons y l ih =>
    simp only [List.orderedInsert]
    by_cases hr : scoreOrder x y
    · rw [if_pos hr]
      by_cases hx : x.score = c <;> simp [hx, List.filter_cons]
    · rw [if_neg hr]
      by_cases hx : x.score = c
      · have hy : ¬ y.score = c := by
          intro hyc
          exact hr (by unfold scoreOrder; rw [hyc, hx])
        simp [List.filter_cons, hy, ih, hx]
      · by_cases hy : y.score = c <;> simp [List.filter_cons, hy, ih, hx]

lemma filter_insertionSort (c : ℚ) : ∀ l : List RouteAnalysis,
    (List.insertionSort scoreOrder l).filter (fun a => decide (a.score = c))
      = l.filter (fun a => decide (a.score = c)) := by
  intro l
  induction l with
  | nil => rfl
  | cons a l ih =>
    simp only [List.insertionSort]
    rw [filter_orderedInsert, ih]
    by_cases ha : a.score = c <;> simp [List.filter_cons, ha]

lemma assignRanks_filter_quote (c w : ℚ) : ∀ (i : ℕ) (l : List RouteAnalysis),
    ((assignRanks w i l).filter (fun a => decide (a.score = c))).map (·.quote)
      = (l.filter (fun a => decide (a.score = c))).map (·.quote) := by
  intro i l
  induction l generalizing i with
  | nil => rfl
  | cons a l ih =>
    simp only [assignRanks, List.filter_cons]
    by_cases ha : a.score = c <;> simp [ha, ih]

lemma map_init_filter (quotes : List NormalizedQuote) (c : ℚ) :
    ∀ l : List NormalizedQuote,
      ((l.map (initial_analysis quotes)).filter
          (fun a => decide (a.score = c))).map (·.quote)
        = l.filter (fun q => decide (calculate_score q quotes = c)) := by
  intro l
  induction l with
  | nil => rfl
  | cons q l ih =>
    simp only [List.map_cons, List.filter_cons]
    by_cases hq : calculate_score q quotes = c <;> simp [initial_analysis, hq, ih]

/-- C3 (amended): `rank_quotes` orders the results descending by total
score only; quotes with equal score keep their relative input order
(Python's sort is stable) - there is no gas-cost or source-name tie-break,
so the order on ties depends on the input order, not only on field
values. -/
theorem rank_quotes_stable_descending (quotes : List NormalizedQuote) :
    ((rank_quotes quotes).map (·.score)).Sorted (· ≥ ·)
    ∧ ∀ c : ℚ,
        ((rank_quotes quotes).filter (fun a => decide (a.score = c))).map (·.quote)
          = quotes.filter (fun q => decide (calculate_score q quotes = c)) := by
  refine ⟨rank_quotes_sorted_scores quotes, ?_⟩
  intro c
  cases quotes with
  | nil => rfl
  | cons q qs =>
    rw [rank_quotes_cons, assignRanks_filter_quote, filter_insertionSort, map_init_filter]

lemma allocLoop_sum_amounts (cal : SplitCalculator) (T W : ℚ) (hT : 0 < T)
    (hW : 0 < W) (n : ℕ) :
    ∀ (rest : List NormalizedQuote) (i : ℕ) (remaining : ℚ),
      rest ≠ [] → i + rest.length = n →
      (∀ q ∈ rest, 0 < impact_weight q) →
      T * ((rest.map impact_weight).sum) / W ≤ remaining →
      ((allocLoop cal T W n i remaining rest).map (·.input_amount)).sum = remaining := by
  have hT0 : T ≠ 0 := ne_of_gt hT
  intro rest
  induction rest with
  | nil => intro i remaining hne; exact absurd rfl hne
  | cons q l ih =>
    intro i remaining _ hlen hw hrem
    have hq : 0 < impact_weight q := hw q (List.mem_cons_self q l)
    simp only [List.length_cons] at hlen
    by_cases hl : l = []
    · subst hl
      simp only [List.length_nil] at hlen
      have hni : ¬ i < n - 1 := by omega
      have hi : i = n - 1 := by omega
      simp only [List.map_cons, List.map_nil, List.sum_cons, List.sum_nil, add_zero] at hrem
      have hrem' : 0 < remaining := by
        have h1 : 0 < T * impact_weight q / W := div_pos (mul_pos hT hq) hW
        linarith
      have hamt : T * (remaining / T * 100 / 100) = remaining := by
        field_simp
        ring
      simp only [allocLoop]
      rw [if_neg (fun hcon => hni hcon.2), if_pos hi, hamt, if_pos hrem']
      simp [allocLoop, create_allocation]
    · have hlpos : 0 < l.length := List.length_pos.mpr hl
      have hni : i < n - 1 := by omega
      have hnei : i ≠ n - 1 := by omega
      have hwl : ∀ x ∈ l, 0 < impact_weight x := fun x hx => hw x (List.mem_cons_of_mem q hx)
      simp only [List.map_cons, List.sum_cons] at hrem
      have hsplit : T * (impact_weight q + (l.map impact_weight).sum) / W
          = T * impact_weight q / W + T * ((l.map impact_weight).sum) / W := by ring
      have hqW : 0 < T * impact_weight q / W := div_pos (mul_pos hT hq) hW
      by_cases hskip : impact_weight q / W * 100 < cal.min_allocation_pct
      · simp only [allocLoop]
        rw [if_pos ⟨hskip, hni⟩]
        refine ih (i + 1) remaining hl (by omega) hwl ?_
        linarith
      · simp only [allocLoop]
        rw [if_neg (fun hcon => hskip hcon.1), if_neg hnei]
        have hamt : T * (impact_weight q / W * 100 / 100) = T * impact_weight q / W := by
          ring
        rw [hamt, if_pos hqW]
        simp only [List.map_cons, List.sum_cons, create_allocation]
        rw [ih (i + 1) (remaining - T * impact_weight q / W) hl (by omega) hwl (by linarith)]
        ring

lemma allocLoop_sum_pcts (cal : SplitCalculator) (T W : ℚ) (hT : T ≠ 0) (n : ℕ) :
    ∀ (rest : List NormalizedQuote) (i : ℕ) (remaining : ℚ),
      ((allocLoop cal T W n i remaining rest).map (·.percentage)).sum
        = ((allocLoop cal T W n i remaining rest).map (·.input_amount)).sum * 100 / T := by
  intro rest
  induction rest with
  | nil => intro i remaining; simp [allocLoop]
  | cons q l ih =>
    intro i remaining
    simp only [allocLoop]
    split_ifs with h1 h2 h3 h4
    · exact ih (i + 1) remaining
    · simp only [List.map_cons, List.sum_cons, create_allocation]
      rw [ih]
      field_simp
      ring
    · exact ih (i + 1) remaining
    · simp only [List.map_cons, List.sum_cons, create_allocation]
      rw [ih]
      field_simp
      ring
    · exact ih (i + 1) remaining

lemma single_venue_sums (quote : NormalizedQuote) (amount : ℚ) :
    ((single_venue_recommendation quote amount).allocations.map (·.percentage)).sum = 100
    ∧ ((single_venue_recommendation quote amount).allocations.map (·.input_amount)).sum
        = amount := by
  constructor <;> simp [single_venue_recommendation, create_allocation]

lemma optimize_split_sums (cal : SplitCalculator) (quotes : List NormalizedQuote)
    (T : ℚ) (hT : 0 < T) (himp : ∀ q ∈ quotes, 0 ≤ q.price_impact) :
    optimize_split cal quotes T = []
    ∨ (((optimize_split cal quotes T).map (·.input_amount)).sum = T
       ∧ ((optimize_split cal quotes T).map (·.percentage)).sum = 100) := by
  have hT0 : T ≠ 0 := ne_of_gt hT
  have hwpos : ∀ q ∈ (List.insertionSort effRateOrder quotes).take cal.max_venues,
      0 < impact_weight q := by
    intro q hq
    have hq' : q ∈ quotes :=
      (List.perm_insertionSort effRateOrder quotes).mem_iff.mp (List.take_subset _ _ hq)
    have h0 := himp q hq'
    have : (0 : ℚ) < q.price_impact + 0.01 := by linarith
    exact one_div_pos.mpr this
  rcases hv : (List.insertionSort effRateOrder quotes).take cal.max_venues
    with _ | ⟨v1, _ | ⟨v2, vs⟩⟩
  · left
    simp [optimize_split, hv, allocLoop]
  · right
    rw [hv] at hwpos
    simp [optimize_split, hv, allocLoop, create_allocation]
  · right
    rw [hv] at hwpos
    have hWpos : 0 < (((v1 :: v2 :: vs).map impact_weight)).sum := by
      refine List.sum_pos _ (fun x hx => ?_) (by simp)
      rcases List.mem_map.mp hx with ⟨y, hy, hxy⟩
      exact hxy ▸ hwpos y hy
    have hrem : T * (((v1 :: v2 :: vs).map impact_weight)).sum
        / (((v1 :: v2 :: vs).map impact_weight)).sum ≤ T := by
      rw [mul_div_assoc, div_self (ne_of_gt hWpos), mul_one]
    have key := allocLoop_sum_amounts cal T (((v1 :: v2 :: vs).map impact_weight)).sum
      hT hWpos (v1 :: v2 :: vs).length (v1 :: v2 :: vs) 0 T (by simp) (by simp)
      hwpos hrem
    have kp := allocLoop_sum_pcts cal T (((v1 :: v2 :: vs).map impact_weight)).sum
      hT0 (v1 :: v2 :: vs).length (v1 :: v2 :: vs) 0 T
    constructor
    · simp only [optimize_split, hv]
      exact key
    · simp only [optimize_split, hv]
      rw [kp, key]
      field_simp

/-- Under the exact decimal arithmetic the spec mandates (no binary-float
round-trips, unbounded precision - see the idealization note on
`allocLoop`): for every non-empty quote list with non-negative price
impacts and positive `total_amount`, `calculate_split` returns a
recommendation whose allocation percentages sum to 100 within the 0.01
tolerance and whose allocation input amounts sum to `total_amount`
exactly.  This shows the allocation logic itself (the last venue absorbs
the remainder) preserves the exact-sum invariant; in the source the
invariant is broken solely by the float/`Decimal`-context roundings of
`split_calculator.py:195-197`. -/
theorem calculate_split_sums_exact_arithmetic (cal : SplitCalculator) (quotes : List NormalizedQuote)
    (total_amount price_usd : ℚ) (hne : quotes ≠ []) (hpos : 0 < total_amount)
    (himp : ∀ q ∈ quotes, 0 ≤ q.price_impact) :
    ∃ r, calculate_split cal quotes total_amount price_usd = some r
      ∧ |(r.allocations.map (·.percentage)).sum - 100| ≤ 0.01
      ∧ (r.allocations.map (·.input_amount)).sum = total_amount := by
  rcases quotes with _ | ⟨q, qs⟩
  · exact absurd rfl hne
  simp only [calculate_split]
  by_cases hsmall : total_amount * price_usd < cal.min_split_size_usd
  · rw [if_pos hsmall]
    refine ⟨_, rfl, ?_, (single_venue_sums _ _).2⟩
    rw [(single_venue_sums _ _).1]
    norm_num
  · rw [if_neg hsmall]
    rcases optimize_split_sums cal (q :: qs) total_amount hpos himp with hE | ⟨hA, hP⟩
    · rw [hE]
      simp only [List.isEmpty_nil, if_true]
      refine ⟨_, rfl, ?_, (single_venue_sums _ _).2⟩
      rw [(single_venue_sums _ _).1]
      norm_num
    · have hno : (optimize_split cal (q :: qs) total_amount).isEmpty = false := by
        cases hOE : optimize_split cal (q :: qs) total_amount with
        | nil =>
          rw [hOE] at hA
          simp at hA
          exact absurd hA.symm (ne_of_gt hpos)
        | cons a l => simp
      rw [hno]
      simp only [Bool.false_eq_true, if_false]
      refine ⟨_, rfl, ?_, hA⟩
      rw [hP]
      norm_num

/-- The 1inch quote of the `split_calculator.py` demo. -/
def split_quote_1inch : NormalizedQuote :=
  { source := "1inch", input_token := "ETH", output_token := "USDC",
    input_amount := 100, output_amount := 251200.00, price := 2512.00,
    price_impact := 1.5, gas_estimate := 150000, gas_price_gwei := 30,
    gas_cost_usd := 11.25, effective_rate := 2511.89,
    protocols := ["Uniswap V3"], is_expired := false }

/-- The Paraswap quote of the `split_calculator.py` demo. -/
def split_quote_paraswap : NormalizedQuote :=
  { source := "Paraswap", input_token := "ETH", output_token := "USDC",
    input_amount := 100, output_amount := 250800.00, price := 2508.00,
    price_impact := 1.8, gas_estimate := 180000, gas_price_gwei := 30,
    gas_cost_usd := 13.50, effective_rate := 2507.87,
    protocols := ["Curve"], is_expired := false }

/-- The 0x quote of the `split_calculator.py` demo. -/
def split_quote_0x : NormalizedQuote :=
  { source := "0x", input_token := "ETH", output_token := "USDC",
    input_amount := 100, output_amount := 250500.00, price := 2505.00,
    price_impact := 2.0, gas_estimate := 160000, gas_price_gwei := 30,
    gas_cost_usd := 12.00, effective_rate := 2504.88,
    protocols := ["Balancer"], is_expired := false }

/-- The three-quote list of the `split_calculator.py` demo. -/
def splitDemoQuotes : List NormalizedQuote :=
  [split_quote_1inch, split_quote_paraswap, split_quote_0x]

/-- The exact-arithmetic sum statement evaluated on the split-calculator
demo data (a 100 ETH trade at 2500 USD, above the split threshold).  On
this same input the source's float/`Decimal`-context arithmetic yields
stored amounts whose mathematical sum is `100 + 1e-26`, not 100. -/
theorem calculate_split_sums_exact_arithmetic_demo :
    ∃ r, calculate_split {} splitDemoQuotes 100 2500 = some r
      ∧ |(r.allocations.map (·.percentage)).sum - 100| ≤ 0.01
      ∧ (r.allocations.map (·.input_amount)).sum = 100 :=
  calculate_split_sums_exact_arithmetic {} splitDemoQuotes 100 2500
    (by simp [splitDemoQuotes])
    (by norm_num)
    (by
      intro q hq
      fin_cases hq <;>
        norm_num [split_quote_1inch, split_quote_paraswap, split_quote_0x])
